import Mathlib

/-!
Verification development for the zeitgeist NTP server.

The Go sources are embedded shallowly:

* Go byte slices become `List Nat` (each element a byte value).
* `net.IP` and `net.IPMask` become byte lists; the Go `nil` slice is the
  empty list.  The relevant Go standard library operations (`IP.Equal`,
  `IP.Mask`, `IP.To4`, `IPNet.Contains`, `CIDRMask`) are translated from
  the Go 1.19 net package sources, since the repository's routing code is
  defined in terms of them.
* `time.Time` instants become `GoTime` (Unix seconds plus nanoseconds
  within the second), which is exactly the information the codec reads
  from an instant (`Unix()` and `Nanosecond()`).
* Fallible Go functions return `Option`; a `nil` error is `some`, a
  non-`nil` error is `none`.
-/

/-- A Go `net.IP` value: a list of byte values; the Go `nil` slice is `[]`. -/
abbrev GoIP := List Nat

/-- A Go `net.IPMask` value. -/
abbrev GoIPMask := List Nat

/-- The Go net package constant `v4InV6Prefix`: ten zero bytes followed by
`0xff, 0xff`, marking an IPv4 address stored in 16-byte form. -/
def v4InV6Bytes : List Nat := [0, 0, 0, 0, 0, 0, 0, 0, 0, 0, 255, 255]

/-- Go `net.IP.To4`: the 4-byte form of an IPv4 address, or `nil` (here `[]`)
when the address is not IPv4. -/
def ipTo4 (ip : GoIP) : GoIP :=
  if ip.length == 4 then ip
  else if ip.length == 16 && ip.take 12 == v4InV6Bytes then ip.drop 12
  else []

/-- Go `net.IP.Equal`: byte equality up to the IPv4-in-IPv6 representation. -/
def ipEqual (ip x : GoIP) : Bool :=
  if ip.length == x.length then ip == x
  else if ip.length == 4 && x.length == 16 then
    x.take 12 == v4InV6Bytes && ip == x.drop 12
  else if ip.length == 16 && x.length == 4 then
    ip.take 12 == v4InV6Bytes && ip.drop 12 == x
  else false

/-- Go net package helper `allFF`. -/
def allFF (bs : List Nat) : Bool := bs.all (fun b => b == 255)

/-- Go `net.IP.Mask`: apply a mask to an address, normalizing mixed 4-byte
and 16-byte representations; returns `nil` (here `[]`) on a length mismatch. -/
def ipMask (ip0 : GoIP) (mask0 : GoIPMask) : GoIP :=
  let mask := if mask0.length == 16 && ip0.length == 4 && allFF (mask0.take 12)
    then mask0.drop 12 else mask0
  let ip := if mask.length == 4 && ip0.length == 16 && ip0.take 12 == v4InV6Bytes
    then ip0.drop 12 else ip0
  if ip.length == mask.length then List.zipWith Nat.land ip mask else []

/-- A Go `net.IPNet` value: an address and a mask. -/
structure GoIPNet where
  ip : GoIP
  mask : GoIPMask
deriving DecidableEq

/-- Go `net.CIDRMask ones bits`. -/
def cidrMask (ones bits : Nat) : GoIPMask :=
  if (bits == 32 || bits == 128) && ones ≤ bits then
    (List.range (bits / 8)).map fun i =>
      if 8 * (i + 1) ≤ ones then 255
      else if ones ≤ 8 * i then 0
      else 256 - 2 ^ (8 - (ones - 8 * i))
  else []

/-- Go net package helper `networkNumberAndMask` used by `IPNet.Contains`. -/
def networkNumberAndMask (n : GoIPNet) : GoIP × GoIPMask :=
  let ip4 := ipTo4 n.ip
  let ip := if ip4.isEmpty then n.ip else ip4
  if ip4.isEmpty && ip.length ≠ 16 then ([], [])
  else if n.mask.length == 4 then
    if ip.length ≠ 4 then ([], []) else (ip, n.mask)
  else if n.mask.length == 16 then
    (ip, if ip.length == 4 then n.mask.drop 12 else n.mask)
  else ([], [])

/-- Go `net.IPNet.Contains`. -/
def ipNetContains (n : GoIPNet) (ip0 : GoIP) : Bool :=
  let nm := networkNumberAndMask n
  let x := ipTo4 ip0
  let ip := if x.isEmpty then ip0 else x
  if ip.length ≠ nm.1.length then false
  else (List.range ip.length).all fun i =>
    Nat.land (nm.1.getD i 0) (nm.2.getD i 0) == Nat.land (ip.getD i 0) (nm.2.getD i 0)

/-- The 16-byte form Go `net.ParseIP` produces for a dotted-quad IPv4
address: `v4InV6Bytes` followed by the four address bytes. -/
def parseIPv4 (a b c d : Nat) : GoIP := v4InV6Bytes ++ [a, b, c, d]

/-- `net.ParseIP` applied to the unspecified IPv6 address. -/
def ipV6Zero : GoIP := [0, 0, 0, 0, 0, 0, 0, 0, 0, 0, 0, 0, 0, 0, 0, 0]

/-- `net.ParseIP` applied to the IPv6 loopback address. -/
def ipV6Loopback : GoIP := [0, 0, 0, 0, 0, 0, 0, 0, 0, 0, 0, 0, 0, 0, 0, 1]

/-!  Routing table and static routing strategy, from the repository's
`routing.go` (`RoutingTableEntry`, `RoutingTable`, `StaticRouting`). -/

/-- `RoutingTableEntry`: routing-table entry with a unique id, a network,
and the timer (of abstract interface type `α`) the network routes to. -/
structure RoutingTableEntry (α : Type) where
  Id : Nat
  IPNet : GoIPNet
  Timer : α
  TimerId : Nat
deriving DecidableEq

/-- `RoutingTable`: an ordered collection of entries with a running id. -/
structure RoutingTable (α : Type) where
  nextId : Nat
  entries : List (RoutingTableEntry α)
deriving DecidableEq

/-- `RoutingTable.Contains`: whether some entry has an equal network address. -/
def RoutingTable.Contains (t : RoutingTable α) (value : GoIPNet) : Bool :=
  t.entries.any fun e => ipEqual e.IPNet.ip value.ip

/-- `RoutingTable.Add`: append an entry unless the address already exists;
`none` models the duplicate-key error. -/
def RoutingTable.Add (t : RoutingTable α) (ipNet : GoIPNet) (timer : α)
    (timerId : Nat) : Option (RoutingTable α) :=
  if t.Contains ipNet then none
  else some
    { nextId := t.nextId + 1
      entries := t.entries ++ [⟨t.nextId, ipNet, timer, timerId⟩] }

/-- `RoutingTable.MustAdd`: like `Add`; the source panics on the error
branch, which is unreachable in every use modeled here. -/
def RoutingTable.MustAdd (t : RoutingTable α) (ipNet : GoIPNet) (timer : α)
    (timerId : Nat) : RoutingTable α :=
  (t.Add ipNet timer timerId).getD t

/-- `StaticRouting.FindTimer`: scan the table twice in reverse insertion
order, first matching masked equality, then the containment test; `none`
models the no-route error. -/
def FindTimer (t : RoutingTable α) (ip : GoIP) : Option α :=
  match t.entries.reverse.find? (fun e => ipEqual (ipMask ip e.IPNet.mask) e.IPNet.ip) with
  | some e => some e.Timer
  | none =>
    match t.entries.reverse.find? (fun e => ipNetContains e.IPNet ip) with
    | some e => some e.Timer
    | none => none

/-- The `defaultRoute` package variable: 0.0.0.0/0. -/
def defaultRoute : GoIPNet := ⟨parseIPv4 0 0 0 0, cidrMask 0 32⟩

/-- The `ipv4Route` package variable: 127.0.0.0/24. -/
def ipv4Route : GoIPNet := ⟨parseIPv4 127 0 0 0, cidrMask 24 32⟩

/-- The `ipv6Route` package variable: ::/120. -/
def ipv6Route : GoIPNet := ⟨ipV6Zero, cidrMask 120 128⟩

/-- `NewStaticRouting`: install the default, IPv4-loopback and
IPv6-loopback routes, all bound to the default timer. -/
def NewStaticRouting (table : RoutingTable α) (defaultTimer : α)
    (timerId : Nat) : RoutingTable α :=
  ((table.MustAdd defaultRoute defaultTimer timerId).MustAdd
      ipv4Route defaultTimer timerId).MustAdd ipv6Route defaultTimer timerId

/-!  Timer collection, from the repository's `timer.go`
(`TimerCollectionEntry`, `TimerCollection`). -/

/-- `TimerCollectionEntry`: a registered timer together with its id. -/
structure TimerCollectionEntry (α : Type) where
  Id : Nat
  Timer : α
deriving DecidableEq

/-- `TimerCollection`: the timer registry; `idx` is the id handed to the
next `Add`. -/
structure TimerCollection (α : Type) where
  idx : Nat
  entries : List (TimerCollectionEntry α)
deriving DecidableEq

/-- `NewTimerCollection`: an empty collection (the size argument only
pre-allocates capacity in the source). -/
def NewTimerCollection (α : Type) (_size : Nat) : TimerCollection α :=
  ⟨0, []⟩

/-- `TimerCollection.Add`: append a timer under the current `idx` and
increment `idx`; returns the new collection and the assigned id. -/
def TimerCollection.Add (c : TimerCollection α) (timer : α) :
    TimerCollection α × Nat :=
  ({ idx := c.idx + 1, entries := c.entries ++ [⟨c.idx, timer⟩] }, c.idx)

/-- `TimerCollection.Get`: first entry with the id; when no entry matches,
the source returns the zero `TimerCollectionEntry` (id 0, `nil` timer),
modeled as `(0, none)`. -/
def TimerCollection.Get (c : TimerCollection α) (id : Nat) : Nat × Option α :=
  match c.entries.find? (fun e => e.Id == id) with
  | some e => (e.Id, some e.Timer)
  | none => (0, none)

/-- `TimerCollection.Remove`: drop the entry at a positional index. -/
def TimerCollection.Remove (c : TimerCollection α) (index : Nat) :
    TimerCollection α :=
  { c with entries := c.entries.take index ++ c.entries.drop (index + 1) }

/-- `TimerCollection.Delete`: remove the first entry carrying the id;
`none` models the deletion error.  The source performs no check of
routing-table references before removing the timer. -/
def TimerCollection.Delete (c : TimerCollection α) (id : Nat) :
    Option (TimerCollection α) :=
  match c.entries.findIdx? (fun e => e.Id == id) with
  | some index => some (c.Remove index)
  | none => none

/-!  The NTP packet codec, from the repository's `package.go`. -/

/-- A `time.Time` instant, carried as its `Unix()` seconds and its
`Nanosecond()` value — the two observations the codec makes of it. -/
structure GoTime where
  sec : Int
  nsec : Nat
deriving DecidableEq

/-- The zero `time.Time` value (January 1 of year 1, UTC): its `Unix()`
seconds are -62135596800 and its nanoseconds are 0. -/
def GoTime.zeroValue : GoTime := ⟨-62135596800, 0⟩

/-- `time.Time.Add` of one second, as used by `ModifyTimer.Update`. -/
def GoTime.addSecond (t : GoTime) : GoTime := ⟨t.sec + 1, t.nsec⟩

/-- `NtpDelta` from `package.go`: the seconds between the 1900 NTP epoch
and the 1970 Unix epoch, computed there via `time.Time.Sub` as the float
2208988800.0, truncated back to this integer at each use. -/
def NtpDelta : Int := 2208988800

/-- `NtpPackage`: the decoded 48-byte NTP packet. -/
structure NtpPackage where
  header : Nat
  rootDelay : Nat
  rootDispersion : Nat
  referenceClockId : Nat
  referenceTimestamp : GoTime
  originateTimestamp : GoTime
  receiveTimestamp : GoTime
  transmitTimestamp : GoTime
deriving DecidableEq

/-- `NTP_LI_MASK`. -/
def NTP_LI_MASK : Nat := 0xC0000000

/-- `NTP_VN_MASK`. -/
def NTP_VN_MASK : Nat := 0x38000000

/-- `NTP_MODE_MASK`. -/
def NTP_MODE_MASK : Nat := 0x07000000

/-- `NTP_STRATUM_MASK`. -/
def NTP_STRATUM_MASK : Nat := 0x00FF0000

/-- `NTP_POLL_MASK`. -/
def NTP_POLL_MASK : Nat := 0x0000FF00

/-- `NTP_PRECISION_MASK`. -/
def NTP_PRECISION_MASK : Nat := 0x000000FF

/-- Go's `^mask` on `uint32` for the header masks: the complement within
32 bits. -/
def u32Compl (m : Nat) : Nat := 0xFFFFFFFF - m

/-- `binary.BigEndian.AppendUint32`: the four big-endian bytes of a
`uint32` value. -/
def u32be (n : Nat) : List Nat :=
  [(n >>> 24) % 256, (n >>> 16) % 256, (n >>> 8) % 256, n % 256]

/-- `binary.BigEndian.Uint32`: read a big-endian `uint32` from the first
four bytes. -/
def beUint32 (bs : List Nat) : Nat :=
  (bs.getD 0 0) <<< 24 ||| (bs.getD 1 0) <<< 16 ||| (bs.getD 2 0) <<< 8 ||| bs.getD 3 0

/-- `NtpPackage.GetLeap`. -/
def NtpPackage.GetLeap (p : NtpPackage) : Nat :=
  Nat.land p.header NTP_LI_MASK >>> 30

/-- `NtpPackage.SetLeap`. -/
def NtpPackage.SetLeap (p : NtpPackage) (value : Nat) : NtpPackage :=
  { p with header := Nat.land p.header (u32Compl NTP_LI_MASK) ||| Nat.land NTP_LI_MASK (value <<< 30) }

/-- `NtpPackage.GetVersion`. -/
def NtpPackage.GetVersion (p : NtpPackage) : Nat :=
  Nat.land p.header NTP_VN_MASK >>> 27

/-- `NtpPackage.SetVersion`. -/
def NtpPackage.SetVersion (p : NtpPackage) (value : Nat) : NtpPackage :=
  { p with header := Nat.land p.header (u32Compl NTP_VN_MASK) ||| Nat.land NTP_VN_MASK (value <<< 27) }

/-- `NtpPackage.GetMode`. -/
def NtpPackage.GetMode (p : NtpPackage) : Nat :=
  Nat.land p.header NTP_MODE_MASK >>> 24

/-- `NtpPackage.SetMode`. -/
def NtpPackage.SetMode (p : NtpPackage) (value : Nat) : NtpPackage :=
  { p with header := Nat.land p.header (u32Compl NTP_MODE_MASK) ||| Nat.land NTP_MODE_MASK (value <<< 24) }

/-- `NtpPackage.GetStratum`. -/
def NtpPackage.GetStratum (p : NtpPackage) : Nat :=
  Nat.land p.header NTP_STRATUM_MASK >>> 16

/-- `NtpPackage.SetStratum`. -/
def NtpPackage.SetStratum (p : NtpPackage) (value : Nat) : NtpPackage :=
  { p with header := Nat.land p.header (u32Compl NTP_STRATUM_MASK) ||| Nat.land NTP_STRATUM_MASK (value <<< 16) }

/-- `NtpPackage.GetPoll`. -/
def NtpPackage.GetPoll (p : NtpPackage) : Nat :=
  Nat.land p.header NTP_POLL_MASK >>> 8

/-- `NtpPackage.SetPoll`. -/
def NtpPackage.SetPoll (p : NtpPackage) (value : Nat) : NtpPackage :=
  { p with header := Nat.land p.header (u32Compl NTP_POLL_MASK) ||| Nat.land NTP_POLL_MASK (value <<< 8) }

/-- `NtpPackage.GetPrecision`. -/
def NtpPackage.GetPrecision (p : NtpPackage) : Nat :=
  Nat.land p.header NTP_PRECISION_MASK >>> 0

/-- `NtpPackage.SetPrecision`. -/
def NtpPackage.SetPrecision (p : NtpPackage) (value : Nat) : NtpPackage :=
  { p with header := Nat.land p.header (u32Compl NTP_PRECISION_MASK) ||| Nat.land NTP_PRECISION_MASK (value <<< 0) }

/-- `NtpPackage.GetRootDelay`. -/
def NtpPackage.GetRootDelay (p : NtpPackage) : Nat := p.rootDelay

/-- `NtpPackage.SetRootDelay`. -/
def NtpPackage.SetRootDelay (p : NtpPackage) (value : Nat) : NtpPackage :=
  { p with rootDelay := value }

/-- `NtpPackage.GetRootDispersion`. -/
def NtpPackage.GetRootDispersion (p : NtpPackage) : Nat := p.rootDispersion

/-- `NtpPackage.SetRootDispersion`. -/
def NtpPackage.SetRootDispersion (p : NtpPackage) (value : Nat) : NtpPackage :=
  { p with rootDispersion := value }

/-- `NtpPackage.GetReferenceClockId`: the source allocates a 4-byte zero
buffer and appends the four id bytes to it, so the returned slice is 8
bytes long, beginning with four zero bytes. -/
def NtpPackage.GetReferenceClockId (p : NtpPackage) : List Nat :=
  [0, 0, 0, 0] ++ u32be p.referenceClockId

/-- `NtpPackage.SetReferenceClockId`: reads the big-endian `uint32` in the
first four bytes of the argument. -/
def NtpPackage.SetReferenceClockId (p : NtpPackage) (value : List Nat) : NtpPackage :=
  { p with referenceClockId := beUint32 value }

/-- `NtpPackage.SetReferenceTimestamp`. -/
def NtpPackage.SetReferenceTimestamp (p : NtpPackage) (value : GoTime) : NtpPackage :=
  { p with referenceTimestamp := value }

/-- `NtpPackage.SetOriginateTimestamp`. -/
def NtpPackage.SetOriginateTimestamp (p : NtpPackage) (value : GoTime) : NtpPackage :=
  { p with originateTimestamp := value }

/-- `NtpPackage.SetReceiveTimestamp`. -/
def NtpPackage.SetReceiveTimestamp (p : NtpPackage) (value : GoTime) : NtpPackage :=
  { p with receiveTimestamp := value }

/-- `NtpPackage.SetTransmitTimestamp`. -/
def NtpPackage.SetTransmitTimestamp (p : NtpPackage) (value : GoTime) : NtpPackage :=
  { p with transmitTimestamp := value }

/-- `timestampToNtpSeconds`: seconds are `uint32(t.Unix() + int64(NtpDelta))`,
the fraction word is `uint32(t.Nanosecond())`. -/
def timestampToNtpSeconds (t : GoTime) : Nat × Nat :=
  (((t.sec + NtpDelta) % 4294967296).toNat, t.nsec % 4294967296)

/-- `ntpSecondsToTimestamp`: the source writes `secs` and `fracs` into a
scratch buffer, never reads it back, and returns the zero `time.Time`. -/
def ntpSecondsToTimestamp (_secs _fracs : Nat) : GoTime :=
  GoTime.zeroValue

/-- `NtpPackage.MarshalBinary`: the 48 bytes of the encoded packet (the
accompanying error is always `nil` in the source). -/
def NtpPackage.MarshalBinary (p : NtpPackage) : List Nat :=
  let ts := fun (t : GoTime) =>
    u32be (timestampToNtpSeconds t).1 ++ u32be (timestampToNtpSeconds t).2
  u32be p.header ++ u32be p.rootDelay ++ u32be p.rootDispersion ++
    u32be p.referenceClockId ++ ts p.referenceTimestamp ++
    ts p.originateTimestamp ++ ts p.receiveTimestamp ++ ts p.transmitTimestamp

/-- `NtpPackage.ToBytes` forwards to `MarshalBinary`. -/
def NtpPackage.ToBytes (p : NtpPackage) : List Nat := p.MarshalBinary

/-- Read the big-endian `uint32` at byte offset `i`. -/
def u32at (data : List Nat) (i : Nat) : Nat :=
  beUint32 [data.getD i 0, data.getD (i + 1) 0, data.getD (i + 2) 0, data.getD (i + 3) 0]

/-- `NtpPackage.UnmarshalBinary`: requires at least 48 bytes (`none`
models the size error); every timestamp field goes through the
`ntpSecondsToTimestamp` stub. -/
def NtpPackage.UnmarshalBinary (data : List Nat) : Option NtpPackage :=
  if data.length < 48 then none
  else some
    { header := u32at data 0
      rootDelay := u32at data 4
      rootDispersion := u32at data 8
      referenceClockId := u32at data 12
      referenceTimestamp := ntpSecondsToTimestamp (u32at data 16) (u32at data 20)
      originateTimestamp := ntpSecondsToTimestamp (u32at data 24) (u32at data 28)
      receiveTimestamp := ntpSecondsToTimestamp (u32at data 32) (u32at data 36)
      transmitTimestamp := ntpSecondsToTimestamp (u32at data 40) (u32at data 44) }

/-- `PackageFromBytes` forwards to `UnmarshalBinary`. -/
def PackageFromBytes (data : List Nat) : Option NtpPackage :=
  NtpPackage.UnmarshalBinary data

/-!  Response synthesis and the request handler, from the repository's
`timer.go` (`PackageFromTimer`) and `server.go` (`Serve`,
`Server.handleRequest`). -/

/-- A resolved `Timer`: its embedded reply-template package and the
instant its `Get` returns while the request is handled (exact for
`ModifyTimer`, whose `Get` is a stored value; for the clock-backed timers
it is the evaluation instant). -/
structure TimerModel where
  NTPPackage : NtpPackage
  now : GoTime
deriving DecidableEq

/-- `PackageFromTimer`: copy the six header bitfields and the three
metadata words from `src` into `dst`, stamp reference and originate from
`timer.Get()`, and return `dst`.  The source's transmit-timestamp
assignment is commented out, so `dst`'s receive and transmit fields pass
through untouched (the error result is always `nil`). -/
def PackageFromTimer (dst src : NtpPackage) (timer : TimerModel) : NtpPackage :=
  ((((((((((dst.SetLeap src.GetLeap).SetVersion src.GetVersion).SetMode
      src.GetMode).SetStratum src.GetStratum).SetPoll src.GetPoll).SetPrecision
      src.GetPrecision).SetRootDelay src.GetRootDelay).SetRootDispersion
      src.GetRootDispersion).SetReferenceClockId
      src.GetReferenceClockId).SetReferenceTimestamp
      timer.now).SetOriginateTimestamp timer.now

/-- `Server.handleRequest` up to the reply packet: decode, stamp the
receive timestamp, resolve a timer, synthesize; `none` models every
logged-and-dropped branch. -/
def handleRequestReply (routing : RoutingTable TimerModel) (addrIP : GoIP)
    (data : List Nat) (rxTimestamp : GoTime) : Option NtpPackage :=
  match PackageFromBytes data with
  | none => none
  | some pkg =>
    match FindTimer routing addrIP with
    | none => none
    | some timer =>
      some (PackageFromTimer (pkg.SetReceiveTimestamp rxTimestamp)
        timer.NTPPackage timer)

/-- `Server.handleRequest` to the bytes written back to the socket. -/
def handleRequest (routing : RoutingTable TimerModel) (addrIP : GoIP)
    (data : List Nat) (rxTimestamp : GoTime) : Option (List Nat) :=
  (handleRequestReply routing addrIP data rxTimestamp).map NtpPackage.MarshalBinary

/-- The buffer `Serve` hands to the handler: `ReadFromUDP` copies the
payload into a fresh 48-byte zero buffer, and the handler receives the
whole buffer regardless of how many bytes were read. -/
def serveBuffer (payload : List Nat) : List Nat :=
  payload.take 48 ++ List.replicate (48 - (payload.take 48).length) 0

/-!  Concrete fixtures used by the claim theorems. -/

/-- A reply-template package, as embedded in a configured timer. -/
def tmplPackage : NtpPackage :=
  { header := 0x24010203
    rootDelay := 11
    rootDispersion := 22
    referenceClockId := 33
    referenceTimestamp := ⟨100, 0⟩
    originateTimestamp := ⟨100, 0⟩
    receiveTimestamp := ⟨100, 0⟩
    transmitTimestamp := ⟨100, 0⟩ }

/-- A client request package whose transmit timestamp is the instant
5 seconds after the Unix epoch. -/
def reqPackage : NtpPackage :=
  { header := 0x1B
    rootDelay := 0
    rootDispersion := 0
    referenceClockId := 0
    referenceTimestamp := ⟨0, 0⟩
    originateTimestamp := ⟨0, 0⟩
    receiveTimestamp := ⟨0, 0⟩
    transmitTimestamp := ⟨5, 0⟩ }

/-- A resolved timer frozen at 2000-01-01T00:00:00Z. -/
def theTimer : TimerModel := ⟨tmplPackage, ⟨946684800, 0⟩⟩

/-- The routing table after initialization, every default route bound to
`theTimer`. -/
def handlerTable : RoutingTable TimerModel := NewStaticRouting ⟨0, []⟩ theTimer 0

/-- A client address, 127.0.0.1 in the 16-byte form `net.ParseIP` yields. -/
def clientIP : GoIP := parseIPv4 127 0 0 1

/-- The receive instant the handler stamps. -/
def rxInstant : GoTime := ⟨777, 0⟩

/-- The request `reqPackage` as decoded back from its own wire bytes: the
non-timestamp words survive, every timestamp collapses to the zero
`time.Time` through the `ntpSecondsToTimestamp` stub. -/
def decodedReq : NtpPackage :=
  { header := 0x1B
    rootDelay := 0
    rootDispersion := 0
    referenceClockId := 0
    referenceTimestamp := GoTime.zeroValue
    originateTimestamp := GoTime.zeroValue
    receiveTimestamp := GoTime.zeroValue
    transmitTimestamp := GoTime.zeroValue }

/-- The reply package the handler synthesizes for `decodedReq`. -/
def handlerReply : NtpPackage :=
  PackageFromTimer (decodedReq.SetReceiveTimestamp rxInstant)
    theTimer.NTPPackage theTimer

/-- A 16-byte UDP payload: a client-mode first byte followed by zeros. -/
def payload16 : List Nat := 0x1B :: List.replicate 15 0

/-- A packet whose four timestamps sit at the Unix epoch with zero
fractional part: its seconds plus the 1900-epoch offset, 2208988800, fit
a `uint32`. -/
def epochPackage : NtpPackage :=
  { header := 0x1B010203
    rootDelay := 7
    rootDispersion := 8
    referenceClockId := 9
    referenceTimestamp := ⟨0, 0⟩
    originateTimestamp := ⟨0, 0⟩
    receiveTimestamp := ⟨0, 0⟩
    transmitTimestamp := ⟨0, 0⟩ }

/-- What the codec actually returns for `epochPackage`'s wire bytes. -/
def epochPackageDecoded : NtpPackage :=
  { epochPackage with
    referenceTimestamp := GoTime.zeroValue
    originateTimestamp := GoTime.zeroValue
    receiveTimestamp := GoTime.zeroValue
    transmitTimestamp := GoTime.zeroValue }

/-- An instant half a second (500000000 nanoseconds) past the epoch. -/
def halfSecond : GoTime := ⟨0, 500000000⟩

/-- Modelled from the spec: the fraction word mandated for an instant,
floor of microseconds-within-second times 2^32 over 1000000. -/
def specFractionWord (t : GoTime) : Nat :=
  t.nsec / 1000 * 4294967296 / 1000000

/-- A global IPv6 address, 2001:db8::1, outside every installed route. -/
def ipGlobalV6 : GoIP :=
  [0x20, 0x01, 0x0d, 0xb8, 0, 0, 0, 0, 0, 0, 0, 0, 0, 0, 0, 1]

/-- R1 of the longest-last routing scenario: 192.168.1.0/24. -/
def net1Route : GoIPNet := ⟨parseIPv4 192 168 1 0, cidrMask 24 32⟩

/-- R2 of the longest-last routing scenario: 192.168.2.11/32. -/
def net2Route : GoIPNet := ⟨parseIPv4 192 168 2 11, cidrMask 32 32⟩

/-- The scenario table after inserting R1 (timer 1) over the defaults
(timer 0). -/
def scenarioTable1 : RoutingTable Nat :=
  (NewStaticRouting ⟨0, []⟩ 0 0).MustAdd net1Route 1 1

/-- The scenario table after further inserting R2 (timer 2). -/
def scenarioTable2 : RoutingTable Nat :=
  scenarioTable1.MustAdd net2Route 2 2

/-- A one-timer registry: timer 7 registered under id 0. -/
def timerRegOne : TimerCollection Nat := ((NewTimerCollection Nat 1).Add 7).1

/-- A routing table whose three entries all reference timer id 0. -/
def routesOnTimer0 : RoutingTable Nat := NewStaticRouting ⟨0, []⟩ 7 0

/-!  Claim theorems. -/

/-- C1: the claim states the synthesized reply's originate timestamp
equals the request's transmit timestamp.  The source instead assigns it
from the resolved timer's `Get()`: at a concrete request whose transmit
timestamp is 5 s past the epoch and a timer frozen at 946684800 s, the
reply's originate timestamp is the timer instant, not the request's
transmit timestamp; the same holds through the whole request handler. -/
theorem c1_originate_is_timer_now_not_request_transmit :
    (PackageFromTimer reqPackage tmplPackage theTimer).originateTimestamp
        = theTimer.now ∧
    (PackageFromTimer reqPackage tmplPackage theTimer).originateTimestamp
        ≠ reqPackage.transmitTimestamp ∧
    (handleRequestReply handlerTable clientIP reqPackage.MarshalBinary
        rxInstant).map (fun r => r.originateTimestamp) = some theTimer.now ∧
    some reqPackage.transmitTimestamp ≠ some theTimer.now := by
  decide

/-- C2: the claim states a payload shorter than 48 bytes is dropped
before any socket write.  The codec would indeed reject the 16-byte
payload, but `Serve` always hands the handler its 48-byte zero-filled
read buffer, so the handler decodes the padded datagram and a reply is
produced and written. -/
theorem c2_short_payload_still_gets_reply :
    NtpPackage.UnmarshalBinary payload16 = none ∧
    (serveBuffer payload16).length = 48 ∧
    (handleRequest handlerTable clientIP (serveBuffer payload16)
        rxInstant).isSome = true := by
  decide

/-- C3: the claim states the reply's transmit timestamp equals the
resolved timer's `Get()`, assigned last before serialization.  The
source's transmit-timestamp assignment is commented out, so the reply
keeps the value already in the packet: at the concrete request the reply's
transmit timestamp is the request's (5 s), not the timer's (946684800 s),
and end to end the handler's reply carries the decoded request's transmit
field, never the timer instant. -/
theorem c3_transmit_is_never_stamped_from_timer :
    (PackageFromTimer reqPackage tmplPackage theTimer).transmitTimestamp
        = reqPackage.transmitTimestamp ∧
    (PackageFromTimer reqPackage tmplPackage theTimer).transmitTimestamp
        ≠ theTimer.now ∧
    (handleRequestReply handlerTable clientIP reqPackage.MarshalBinary
        rxInstant).map (fun r => r.transmitTimestamp) = some GoTime.zeroValue ∧
    some GoTime.zeroValue ≠ some theTimer.now := by
  decide

/-- C4: the claim states that a packet with whole-second timestamps that
fit `uint32` after the 1900 offset round-trips through the codec.
`epochPackage` satisfies the premises (all four timestamps are the Unix
epoch: zero nanoseconds, seconds plus 2208988800 below 2^32), the four
non-timestamp words do round-trip, yet decoding returns the zero
`time.Time` in every timestamp field, so the round-trip fails. -/
theorem c4_roundtrip_loses_timestamps :
    epochPackage.referenceTimestamp.nsec = 0 ∧
    epochPackage.originateTimestamp.nsec = 0 ∧
    epochPackage.receiveTimestamp.nsec = 0 ∧
    epochPackage.transmitTimestamp.nsec = 0 ∧
    epochPackage.transmitTimestamp.sec + NtpDelta < 4294967296 ∧
    0 ≤ epochPackage.transmitTimestamp.sec + NtpDelta ∧
    PackageFromBytes epochPackage.MarshalBinary = some epochPackageDecoded ∧
    epochPackageDecoded.header = epochPackage.header ∧
    epochPackageDecoded.rootDelay = epochPackage.rootDelay ∧
    epochPackageDecoded.rootDispersion = epochPackage.rootDispersion ∧
    epochPackageDecoded.referenceClockId = epochPackage.referenceClockId ∧
    epochPackageDecoded.referenceTimestamp ≠ epochPackage.referenceTimestamp ∧
    PackageFromBytes epochPackage.MarshalBinary ≠ some epochPackage := by
  decide

/-- C5: the claim states the encoded fraction word is the binary fraction
floor(microseconds * 2^32 / 1000000).  The source writes the raw
nanosecond count instead: for an instant half a second past the epoch the
code emits 500000000 while the mandated word is 2147483648. -/
theorem c5_fraction_word_is_raw_nanoseconds :
    (timestampToNtpSeconds halfSecond).2 = 500000000 ∧
    specFractionWord halfSecond = 2147483648 ∧
    (timestampToNtpSeconds halfSecond).2 ≠ specFractionWord halfSecond := by
  decide

/-- C7: with R1=192.168.1.0/24 (timer 1) and R2=192.168.2.11/32 (timer 2)
inserted after the default routes (timer 0), the six lookups resolve as
the claim states; the last two conjuncts exhibit the tie-break: the
default 0.0.0.0/0 entry also matches 192.168.1.10 in the first scan, yet
the most recently inserted matching entry R1 wins. -/
theorem c7_longest_last_lookups :
    (NewStaticRouting ⟨0, []⟩ 0 0).Add net1Route 1 1 = some scenarioTable1 ∧
    scenarioTable1.Add net2Route 2 2 = some scenarioTable2 ∧
    FindTimer scenarioTable2 (parseIPv4 192 168 1 10) = some 1 ∧
    FindTimer scenarioTable2 (parseIPv4 192 168 1 11) = some 1 ∧
    FindTimer scenarioTable2 (parseIPv4 192 168 2 11) = some 2 ∧
    FindTimer scenarioTable2 (parseIPv4 192 168 2 10) = some 0 ∧
    FindTimer scenarioTable2 (parseIPv4 127 0 0 1) = some 0 ∧
    FindTimer scenarioTable2 ipV6Loopback = some 0 ∧
    ipEqual (ipMask (parseIPv4 192 168 1 10) defaultRoute.mask)
        defaultRoute.ip = true ∧
    ipEqual (ipMask (parseIPv4 192 168 1 10) net1Route.mask)
        net1Route.ip = true := by
  decide

/-- C6 counterexample: with exactly the initialization routes installed,
the global IPv6 address 2001:db8::1 matches no entry — the 0.0.0.0/0
entry's 4-byte mask does not apply to a 16-byte non-v4-mapped address —
so `FindTimer` returns the no-route error, contradicting the claim that
it never does for any IPv6 client. -/
theorem c6_counterexample_global_ipv6_gets_noroute :
    FindTimer (NewStaticRouting ⟨0, []⟩ (0 : Nat) 0) ipGlobalV6 = none := by
  decide

/-- C6 (amended): after initialization, `FindTimer` resolves every IPv4
client — any 4-byte address and any 16-byte v4-mapped address — and every
IPv6 address inside ::/120 to the default timer, never returning the
no-route error for them; for IPv6 addresses outside ::/120 the error is
reachable (see the counterexample). -/
theorem c6_default_routes_cover_ipv4_and_v6loopback (α : Type) (d : α)
    (a b c e t : Nat) :
    FindTimer (NewStaticRouting ⟨0, []⟩ d 0) [a, b, c, e] = some d ∧
    FindTimer (NewStaticRouting ⟨0, []⟩ d 0)
      [0, 0, 0, 0, 0, 0, 0, 0, 0, 0, 255, 255, a, b, c, e] = some d ∧
    FindTimer (NewStaticRouting ⟨0, []⟩ d 0)
      [0, 0, 0, 0, 0, 0, 0, 0, 0, 0, 0, 0, 0, 0, 0, t] = some d := by
  refine ⟨?_, ?_, ?_⟩
  · show FindTimer ⟨3, [⟨0, defaultRoute, d, 0⟩, ⟨1, ipv4Route, d, 0⟩,
      ⟨2, ipv6Route, d, 0⟩]⟩ [a, b, c, e] = some d
    have h2 : ipEqual (ipMask [a, b, c, e] ipv6Route.mask) ipv6Route.ip
        = false := rfl
    have h0 : ipEqual (ipMask [a, b, c, e] defaultRoute.mask)
        defaultRoute.ip = true := by
      show ipEqual [a &&& 0, b &&& 0, c &&& 0, e &&& 0] defaultRoute.ip = true
      simp only [Nat.and_zero]
      decide
    cases hb : ipEqual (ipMask [a, b, c, e] ipv4Route.mask) ipv4Route.ip with
    | true =>
      unfold FindTimer
      simp only [List.reverse_cons, List.reverse_nil, List.nil_append,
        List.cons_append, List.append_nil, List.find?, h2, hb]
    | false =>
      unfold FindTimer
      simp only [List.reverse_cons, List.reverse_nil, List.nil_append,
        List.cons_append, List.append_nil, List.find?, h2, hb, h0]
  · show FindTimer ⟨3, [⟨0, defaultRoute, d, 0⟩, ⟨1, ipv4Route, d, 0⟩,
      ⟨2, ipv6Route, d, 0⟩]⟩
      [0, 0, 0, 0, 0, 0, 0, 0, 0, 0, 255, 255, a, b, c, e] = some d
    have h2 : ipEqual (ipMask [0, 0, 0, 0, 0, 0, 0, 0, 0, 0, 255, 255, a, b, c, e]
        ipv6Route.mask) ipv6Route.ip = false := rfl
    have h0 : ipEqual (ipMask [0, 0, 0, 0, 0, 0, 0, 0, 0, 0, 255, 255, a, b, c, e]
        defaultRoute.mask) defaultRoute.ip = true := by
      show ipEqual [a &&& 0, b &&& 0, c &&& 0, e &&& 0] defaultRoute.ip = true
      simp only [Nat.and_zero]
      decide
    cases hb : ipEqual (ipMask [0, 0, 0, 0, 0, 0, 0, 0, 0, 0, 255, 255, a, b, c, e]
        ipv4Route.mask) ipv4Route.ip with
    | true =>
      unfold FindTimer
      simp only [List.reverse_cons, List.reverse_nil, List.nil_append,
        List.cons_append, List.append_nil, List.find?, h2, hb]
    | false =>
      unfold FindTimer
      simp only [List.reverse_cons, List.reverse_nil, List.nil_append,
        List.cons_append, List.append_nil, List.find?, h2, hb, h0]
  · show FindTimer ⟨3, [⟨0, defaultRoute, d, 0⟩, ⟨1, ipv4Route, d, 0⟩,
      ⟨2, ipv6Route, d, 0⟩]⟩
      [0, 0, 0, 0, 0, 0, 0, 0, 0, 0, 0, 0, 0, 0, 0, t] = some d
    have h2 : ipEqual (ipMask [0, 0, 0, 0, 0, 0, 0, 0, 0, 0, 0, 0, 0, 0, 0, t]
        ipv6Route.mask) ipv6Route.ip = true := by
      show ipEqual [0, 0, 0, 0, 0, 0, 0, 0, 0, 0, 0, 0, 0, 0, 0, t &&& 0]
        ipv6Route.ip = true
      simp only [Nat.and_zero]
      decide
    unfold FindTimer
    simp only [List.reverse_cons, List.reverse_nil, List.nil_append,
      List.cons_append, List.append_nil, List.find?, h2]

/-- C8: registry ids are handed out monotonically and never reused: `Add`
returns the running `idx` and bumps it, `Delete` leaves `idx` alone; in
the concrete scenario, after adding t0, t1, t2 under ids 0, 1, 2 and
deleting id 1, ids 0 and 2 still resolve their timers and the next `Add`
returns id 3, not 1. -/
theorem c8_timer_ids_monotonic_never_reused (α : Type) (c : TimerCollection α)
    (timer t0 t1 t2 t3 : α) (i : Nat) :
    (c.Add timer).2 = c.idx ∧
    (c.Add timer).1.idx = c.idx + 1 ∧
    ((c.Delete i).getD c).idx = c.idx ∧
    ((((NewTimerCollection α 3).Add t0).1.Add t1).1.Add t2).1.Delete 1
        = some ⟨3, [⟨0, t0⟩, ⟨2, t2⟩]⟩ ∧
    (((NewTimerCollection α 3).Add t0).2,
        (((NewTimerCollection α 3).Add t0).1.Add t1).2,
        ((((NewTimerCollection α 3).Add t0).1.Add t1).1.Add t2).2) = (0, 1, 2) ∧
    TimerCollection.Get ⟨3, [⟨0, t0⟩, ⟨2, t2⟩]⟩ 0 = (0, some t0) ∧
    TimerCollection.Get ⟨3, [⟨0, t0⟩, ⟨2, t2⟩]⟩ 2 = (2, some t2) ∧
    (TimerCollection.Add ⟨3, [⟨0, t0⟩, ⟨2, t2⟩]⟩ t3).2 = 3 ∧
    (3 : Nat) ≠ 1 := by
  refine ⟨rfl, rfl, ?_, rfl, rfl, rfl, rfl, rfl, by decide⟩
  unfold TimerCollection.Delete
  cases h : c.entries.findIdx? (fun en => en.Id == i) <;> rfl

/-- C9: the claim states deleting a timer still referenced by a route is
refused with an in-use error, leaving registry and table unchanged.  The
source's `Delete` performs no reference check: with timer id 0 referenced
by all three routes of `routesOnTimer0`, deletion succeeds and removes
the timer from the registry. -/
theorem c9_delete_ignores_route_references :
    routesOnTimer0.entries.any (fun e => e.TimerId == 0) = true ∧
    timerRegOne.Delete 0 = some ⟨1, []⟩ := by
  decide

/-- C10: `PackageFromTimer` writes only the header bitfields, the three
metadata words, and the reference and originate timestamps; `dst`'s
receive and transmit timestamps pass through unchanged.  Consequently
every reply the handler produces carries the stamped receive instant in
its receive timestamp and the decoded request's transmit-timestamp field
value in its transmit timestamp. -/
theorem c10_synthesizer_frame (dst src : NtpPackage) (timer : TimerModel)
    (routing : RoutingTable TimerModel) (addrIP : GoIP) (data : List Nat)
    (rx : GoTime) (req reply : NtpPackage)
    (hreq : PackageFromBytes data = some req)
    (hreply : handleRequestReply routing addrIP data rx = some reply) :
    (PackageFromTimer dst src timer).receiveTimestamp = dst.receiveTimestamp ∧
    (PackageFromTimer dst src timer).transmitTimestamp = dst.transmitTimestamp ∧
    (PackageFromTimer dst src timer).referenceTimestamp = timer.now ∧
    (PackageFromTimer dst src timer).originateTimestamp = timer.now ∧
    (PackageFromTimer dst src timer).rootDelay = src.rootDelay ∧
    (PackageFromTimer dst src timer).rootDispersion = src.rootDispersion ∧
    reply.receiveTimestamp = rx ∧
    reply.transmitTimestamp = req.transmitTimestamp := by
  refine ⟨rfl, rfl, rfl, rfl, rfl, rfl, ?_, ?_⟩ <;>
  · unfold handleRequestReply at hreply
    cases hft : FindTimer routing addrIP with
    | none =>
      rw [hreq, hft] at hreply
      simp at hreply
    | some tm =>
      rw [hreq, hft] at hreply
      simp only [Option.some.injEq] at hreply
      rw [← hreply]
      rfl

/-- C10 witness: the frame theorem applied to the concrete request,
template, frozen timer, and initialized routing table. -/
theorem c10_synthesizer_frame_witness :
    PackageFromBytes reqPackage.MarshalBinary = some decodedReq ∧
    handleRequestReply handlerTable clientIP reqPackage.MarshalBinary rxInstant
        = some handlerReply ∧
    ((PackageFromTimer reqPackage tmplPackage theTimer).receiveTimestamp
        = reqPackage.receiveTimestamp ∧
      (PackageFromTimer reqPackage tmplPackage theTimer).transmitTimestamp
        = reqPackage.transmitTimestamp ∧
      (PackageFromTimer reqPackage tmplPackage theTimer).referenceTimestamp
        = theTimer.now ∧
      (PackageFromTimer reqPackage tmplPackage theTimer).originateTimestamp
        = theTimer.now ∧
      (PackageFromTimer reqPackage tmplPackage theTimer).rootDelay
        = tmplPackage.rootDelay ∧
      (PackageFromTimer reqPackage tmplPackage theTimer).rootDispersion
        = tmplPackage.rootDispersion ∧
      handlerReply.receiveTimestamp = rxInstant ∧
      handlerReply.transmitTimestamp = decodedReq.transmitTimestamp) :=
  ⟨by decide, by decide,
    c10_synthesizer_frame reqPackage tmplPackage theTimer handlerTable clientIP
      reqPackage.MarshalBinary rxInstant decodedReq handlerReply
      (by decide) (by decide)⟩
